import Mathlib

/-!
Verification development for the npbackup GUI front-end
(`src/npbackup/gui/main.py`).

Strings are embedded as `List Char`.  Python's `None`-able values are
embedded as `Option`; a raised exception in a modelled function is an
`Option.none` result of that function.  External-library behaviour that the
code merely passes data through (dateutil date parsing/formatting,
`BytesConverter(..).human`) is kept abstract by taking the corresponding
function as an explicit parameter; theorems quantify over it.
-/

namespace NpbackupGui

/-- The translation of `[inconnu]`, the placeholder string substituted by
`_ls_window` when a field of the snapshot header record is missing. -/
def inconnu : List Char := ['[', 'i', 'n', 'c', 'o', 'n', 'n', 'u', ']']

/-! ## Snapshot records (engine JSON output)

A snapshot record is a JSON object; each field may be absent, which in the
Python source makes a subscript access raise `KeyError`.  `none` models an
absent key. -/

/-- One snapshot record as returned by the engine for `list`, or as the
header record of an `ls` stream.  Fields are `Option` because the engine
output may omit them (`KeyError` on access in Python). -/
structure SnapshotRecord where
  time : Option (List Char)
  username : Option (List Char)
  hostname : Option (List Char)
  short_id : Option (List Char)
deriving DecidableEq, Repr

/-! ## `_gui_update_state` (src/npbackup/gui/main.py lines 101-112) -/

/-- The three visual states the `state-button` widget can be put into by
`_gui_update_state`. -/
inductive StateButtonDisplay
  | upToDate
  | tooOld
  | notConnected
deriving DecidableEq, Repr

/-- `_gui_update_state`'s dispatch on `current_state`, whose domain is the
tri-state result of the `has_recent_snapshots` action (`True`/`False`/`None`,
embedded as `Option Bool`):
`if current_state:` fires exactly on `some true` (truthy);
`elif current_state is False:` fires exactly on `some false`;
`elif current_state is None:` fires exactly on `none`. -/
def guiUpdateStateButton : Option Bool → StateButtonDisplay
  | some true => .upToDate
  | some false => .tooOld
  | none => .notConnected

/-! ## `get_gui_data` (src/npbackup/gui/main.py lines 81-98)

`get_gui_data` first validates the configuration
(`if not config['repo']['repository'] and not config['repo']['password']`,
with `KeyError` caught), then runs the synchronous `check-binary` action,
and only if its result is truthy submits the threaded `_get_gui_data`
worker.  The error paths pop a message and return `(None, None)` without
submitting the worker. -/

/-- The `repo` section of the configuration.  `none` models a missing key
(subscripting raises `KeyError`); `some []` models an empty string (falsy). -/
structure RepoConfig where
  repository : Option (List Char)
  password : Option (List Char)
deriving DecidableEq, Repr

/-- The configuration mapping: the `repo` key itself may be missing. -/
structure Config where
  repo : Option RepoConfig
deriving DecidableEq, Repr

/-- Python truthiness of a `True`/`False`/`None` value. -/
def pyTruthy : Option Bool → Bool
  | some b => b
  | none => false

/-- What one call of `get_gui_data` does.  `repoNotConfigured` and
`noBinary` are the two error paths: a popup is shown and `(None, None)` is
returned with no background worker submitted.  `submitted worker` is the
path that submits the threaded `_get_gui_data` worker and returns its
result. -/
inductive GuiDataOutcome (α : Type)
  | repoNotConfigured
  | noBinary
  | submitted (worker : α)
deriving DecidableEq, Repr

/-- `get_gui_data`, with the result of the synchronous `check-binary`
runner call passed in as `checkBinary` and the (pure) value the threaded
`_get_gui_data` worker would produce passed in as `worker`.
Mirrors the source: the `try` block evaluates
`not config['repo']['repository'] and not config['repo']['password']` with
Python short-circuiting — when `repository` is non-empty the `password`
key is never read — and `except KeyError` lands on the same error path. -/
def getGuiData {α : Type} (checkBinary : Option Bool) (worker : α)
    (cfg : Config) : GuiDataOutcome α :=
  match cfg.repo with
  | none => .repoNotConfigured
  | some rc =>
    match rc.repository with
    | none => .repoNotConfigured
    | some rep =>
      if rep = [] then
        match rc.password with
        | none => .repoNotConfigured
        | some pw =>
          if pw = [] then .repoNotConfigured
          else if pyTruthy checkBinary then .submitted worker else .noBinary
      else if pyTruthy checkBinary then .submitted worker else .noBinary

/-! ## `_get_gui_data` (src/npbackup/gui/main.py lines 54-78)

The threaded worker runs the `list` action, then `has_recent_snapshots`,
then — when `snapshots` is truthy — reverses the snapshot list in place
("Let's show newer snapshots first") and formats one listbox line per
snapshot with
`"{} {} {} {}@{} [ID {}]".format(backup_from, date, run_as, username, hostname, short_id)`.
Field access is a plain subscript: a missing key raises `KeyError`, which
the worker does not catch (modelled as a `none` result). -/

/-- The listbox line `_get_gui_data` builds for one snapshot record.
`parseDate` abstracts `dateutil.parser.parse(..).strftime("%Y-%m-%d %H:%M:%S")`;
`tBackupFrom` and `tRunAs` are the translation constants
`_t('main_gui.backup_from')` and `_t('main_gui.run_as')`.  A missing field
makes the subscript access raise, hence `none`; fields are read in source
order (`time`, `username`, `hostname`, `short_id`). -/
def formatSnapshotLine (parseDate : List Char → List Char)
    (tBackupFrom tRunAs : List Char) (s : SnapshotRecord) :
    Option (List Char) := do
  let t ← s.time
  let user ← s.username
  let host ← s.hostname
  let sid ← s.short_id
  pure (tBackupFrom ++ ' ' :: parseDate t ++ ' ' :: tRunAs ++ ' ' :: user
    ++ '@' :: host ++ ' ' :: '[' :: 'I' :: 'D' :: ' ' :: (sid ++ [']']))

/-- The `for snapshot in snapshots: snapshot_list.append(...)` loop: lines
accumulate in iteration order; the first raising iteration aborts the
worker. -/
def buildSnapshotList (fmt : SnapshotRecord → Option (List Char)) :
    List SnapshotRecord → Option (List (List Char))
  | [] => some []
  | s :: rest => do
    let line ← fmt s
    let restLines ← buildSnapshotList fmt rest
    pure (line :: restLines)

/-- The threaded `_get_gui_data` worker.  `snapshots` is the `list`
action's result (`none` when the runner returned `None`), `currentState`
the `has_recent_snapshots` result.  `if snapshots:` is falsy on `none` and
on an empty list, in which case `snapshot_list` stays `[]`.  The outer
`Option` is the worker raising (`KeyError` on a snapshot field). -/
def guiDataWorker (parseDate : List Char → List Char)
    (tBackupFrom tRunAs : List Char)
    (snapshots : Option (List SnapshotRecord)) (currentState : Option Bool) :
    Option (Option Bool × List (List Char)) :=
  let body : Option (List (List Char)) :=
    match snapshots with
    | none => some []
    | some l =>
      if l.isEmpty then some []
      else buildSnapshotList (formatSnapshotLine parseDate tBackupFrom tRunAs)
        l.reverse
  body.map (fun lines => (currentState, lines))

/-! ## `_ls_window` header formatting (src/npbackup/gui/main.py lines 164-184)

The first record of the `ls` stream is the snapshot header; each of
`time`, `short_id`, `username`, `hostname` is read inside its own
`try/except (KeyError, IndexError)` that substitutes `'[inconnu]'`, and the
header line is
`" {} {} {} {}@{} {} {}".format(backup_content_from, snap_date, run_as, username, hostname, identified_by, short_id)`. -/

/-- The backup-content header line built by `_ls_window` from the `ls`
header record.  `parseDate` abstracts `dateutil.parser.parse` (the parsed
date object is interpolated by `format`); `t1`, `t2`, `t3` are the
translation constants `_t('main_gui.backup_content_from')`,
`_t('main_gui.run_as')`, `_t('main_gui.identified_by')`.  Every missing
field is replaced by the `'[inconnu]'` placeholder; the function is total
(never raises). -/
def lsHeaderLine (parseDate : List Char → List Char)
    (t1 t2 t3 : List Char) (hdr : SnapshotRecord) : List Char :=
  let snapDate := match hdr.time with
    | some t => parseDate t
    | none => inconnu
  let sid := hdr.short_id.getD inconnu
  let user := hdr.username.getD inconnu
  let host := hdr.hostname.getD inconnu
  ' ' :: t1 ++ ' ' :: snapDate ++ ' ' :: t2 ++ ' ' :: user ++ '@' :: host
    ++ ' ' :: t3 ++ ' ' :: sid

/-! ## `ls_window`'s snapshot-id extraction (src/npbackup/gui/main.py line 189)

`re.match(r".*\[ID (.*)\].*", snapshot).group(1)`.  The pattern is
compiled without `re.DOTALL`, so `.` matches any character EXCEPT `'\n'`:
the leading `.*` must match a newline-free prefix of the text, the four
marker characters `'[ID '` are themselves not newlines, the capture
`(.*)` cannot span a newline, and the closing `']'` must therefore come
before the next newline; the trailing `.*` can always match the empty
string.  Consequently every successful match — marker, capture and
closing bracket — lies entirely inside the text BEFORE THE FIRST
NEWLINE, and `re.match` returns `None` whenever that newline-free prefix
admits no match (in which case `.group(1)` raises `AttributeError`).
Within that prefix Python's greedy backtracking settles the leading `.*`
on the LAST occurrence of `'[ID '` that still lets the remainder match
(i.e. that is followed by some `']'`), and the capture `(.*)` then
extends to the LAST `']'` after that marker. -/

/-- Does the list start with the four marker characters `'[ID '`?  If so,
return what follows them. -/
def stripMarker : List Char → Option (List Char)
  | c1 :: c2 :: c3 :: c4 :: rest =>
    if c1 = '[' ∧ c2 = 'I' ∧ c3 = 'D' ∧ c4 = ' ' then some rest else none
  | _ => none

/-- Split at the last occurrence of the marker `"[ID "` that is followed
by some `']'`: returns (text before the marker, text after the marker).
Occurrences further right take precedence, mirroring the greedy `.*` that
precedes `\[ID ` in the pattern.  This split is only ever applied (by
`idExtract`) to the newline-free prefix of the line, to which the whole
match is confined because `.` cannot cross `'\n'`. -/
def lastMarkerSplit : List Char → Option (List Char × List Char)
  | [] => none
  | c :: rest =>
    match lastMarkerSplit rest with
    | some (pre, post) => some (c :: pre, post)
    | none =>
      match stripMarker (c :: rest) with
      | some post => if ']' ∈ post then some ([], post) else none
      | none => none

/-- Split at the last `']'`: returns (text before it, text after it).
Mirrors the greedy capture `(.*)` followed by `\]`.  Like
`lastMarkerSplit`, it is only ever applied to newline-free text — the
capture cannot span a `'\n'`, and `idExtract` confines it to the text
before the first newline. -/
def lastCloseSplit : List Char → Option (List Char × List Char)
  | [] => none
  | c :: rest =>
    match lastCloseSplit rest with
    | some (pre, post) => some (c :: pre, post)
    | none => if c = ']' then some ([], rest) else none

/-- `re.match(r".*\[ID (.*)\].*", line).group(1)`: the captured group, or
`none` when the pattern does not match (in which case the source raises
`AttributeError` on `.group(1)` of `None`).  Because `.` does not match
`'\n'`, the whole match is confined to the text before the first newline
(see the section comment above), so the greedy marker/bracket splits are
applied to exactly that newline-free prefix. -/
def idExtract (line : List Char) : Option (List Char) := do
  let (_, post) ← lastMarkerSplit (line.takeWhile (fun c => c ≠ '\n'))
  let (cap, _) ← lastCloseSplit post
  pure cap

/-! ## Backend-type detection in `main_gui` (src/npbackup/gui/main.py lines 294-302)

```
backup_destination = _t('main_gui.local_folder')
backend_type = None
try:
    backend_type = config['repo']['repository'].split(':')[0].upper()
    if backend_type in ['REST', 'S3', 'B2', 'SFTP', 'SWIFT', 'AZURE', 'GZ', 'RCLONE']:
        backup_destination = "... external_server ..." + backend_type
except (KeyError, AttributeError, TypeError):
    pass
```
`split(':')[0]` of a colon-free string is the whole string.  A missing
key raises `KeyError`, a non-string value makes `.split` raise
`AttributeError`/`TypeError`; both are swallowed, leaving the local-folder
default. -/

/-- The value stored under `config['repo']['repository']`: either a Python
string or some non-string value (on which `.split` raises). -/
inductive RepoValue
  | pyStr (s : List Char)
  | nonStr
deriving DecidableEq, Repr

/-- What the main window displays as the backup destination. -/
inductive BackupDestinationDisplay
  | localFolder
  | externalServer (backend : List Char)
deriving DecidableEq, Repr

/-- The literal list `['REST', 'S3', 'B2', 'SFTP', 'SWIFT', 'AZURE', 'GZ', 'RCLONE']`. -/
def backendNames : List (List Char) :=
  [ ['R', 'E', 'S', 'T']
  , ['S', '3']
  , ['B', '2']
  , ['S', 'F', 'T', 'P']
  , ['S', 'W', 'I', 'F', 'T']
  , ['A', 'Z', 'U', 'R', 'E']
  , ['G', 'Z']
  , ['R', 'C', 'L', 'O', 'N', 'E'] ]

/-- `repository.split(':')[0].upper()`. -/
def backendTypeOf (s : List Char) : List Char :=
  (s.takeWhile (fun c => c ≠ ':')).map Char.toUpper

/-- The destination display computed at the top of `main_gui` from the
`repository` entry (`none` = key missing). -/
def mainGuiDestination (repoEntry : Option RepoValue) :
    BackupDestinationDisplay :=
  match repoEntry with
  | none => .localFolder
  | some .nonStr => .localFolder
  | some (.pyStr s) =>
    if backendTypeOf s ∈ backendNames then .externalServer (backendTypeOf s)
    else .localFolder

/-! ## `_make_treedata_from_json` (src/npbackup/gui/main.py lines 115-151)

The tree is a `PySimpleGUI.TreeData`.  That class is an external
dependency (not part of this repository); it is modelled here from its
source semantics: `tree_dict` is a plain dict that initially maps the
empty key `""` to a root node, and
`Insert(parent, key, ...)` does `tree_dict[key] = node` and then
`parent_node = tree_dict[parent]` — a `KeyError` when the parent key is
not present — followed by appending the new key to the parent's children. -/

/-- One node of the modelled `sg.TreeData`: the constructor arguments of
`TreeData.Node`, with children tracked as a list of keys. -/
structure TreeNode where
  parent : List Char
  key : List Char
  text : List Char
  values : List (List Char)
  children : List (List Char)
deriving DecidableEq, Repr

/-- The modelled `sg.TreeData`: its `tree_dict` as an association list,
most recent binding first (lookup takes the first match, as a dict read
sees the latest assignment). -/
structure TreeData where
  tree_dict : List (List Char × TreeNode)
deriving DecidableEq, Repr

/-- Dict read `tree_dict[k]`, `none` = `KeyError`. -/
def TreeData.find (td : TreeData) (k : List Char) : Option TreeNode :=
  (td.tree_dict.find? (fun kv => kv.1 = k)).map Prod.snd

/-- `k in tree_dict`. -/
def TreeData.hasKey (td : TreeData) (k : List Char) : Bool :=
  (td.find k).isSome

/-- A fresh `sg.TreeData()`: the root node under key `""`. -/
def TreeData.empty : TreeData :=
  ⟨[([], ⟨[], [], ['r', 'o', 'o', 't'], [], []⟩)]⟩

/-- `TreeData.Insert(parent, key, text, values)`: store the node under
`key` (a dict assignment replaces any existing binding), then look the
parent up (after the store, as in the source) and add the new key to its
children; `none` models the `KeyError` raised when the parent key is
absent. -/
def TreeData.insert (td : TreeData) (parent key text : List Char)
    (values : List (List Char)) : Option TreeData :=
  let node : TreeNode := ⟨parent, key, text, values, []⟩
  let dict1 := (key, node) :: td.tree_dict.filter (fun kv => kv.1 ≠ key)
  match (dict1.find? (fun kv => kv.1 = parent)).map Prod.snd with
  | none => none
  | some pnode =>
    some ⟨dict1.map (fun kv =>
      if kv.1 = parent then
        (kv.1, { pnode with children := pnode.children ++ [key] })
      else kv)⟩

/-- One `ls` tree-node record, with the fields `_make_treedata_from_json`
reads: `path`, `name`, `type`, `size`, `mtime`.  The claims concern
well-formed node records, so these fields are total here. -/
structure LsEntry where
  path : List Char
  name : List Char
  entryType : List Char
  size : Nat
  mtime : List Char
deriving DecidableEq, Repr

/-- `entry['path'].lstrip('/')`: drop every leading `'/'`. -/
def lstripSlash (p : List Char) : List Char :=
  p.dropWhile (fun c => c = '/')

/-- `os.path.dirname` for POSIX paths (the paths here have had their
leading slashes stripped): the prefix up to the last `'/'`, with trailing
slashes removed unless the prefix is all slashes; `[]` when there is no
`'/'`. -/
def posixDirname (p : List Char) : List Char :=
  let revHead := p.reverse.dropWhile (fun c => c ≠ '/')
  if revHead.all (fun c => c = '/') then revHead.reverse
  else (revHead.dropWhile (fun c => c = '/')).reverse

/-- The body of the `for entry in ls_result` loop for one entry, acting on
the accumulated `TreeData`.  `isWindows` is `os.name == 'nt'` (which
lower-cases the tree key); `parseDate` abstracts
`dateutil.parser.parse(..).strftime("%Y-%m-%d %H:%M:%S")` and `bytesHuman`
abstracts `BytesConverter(..).human`.  Directory entries are inserted only
when their key is not yet in `tree_dict`; file entries are always
inserted; other types are skipped.  `none` models the loop raising. -/
def treedataStep (isWindows : Bool) (parseDate : List Char → List Char)
    (bytesHuman : Nat → List Char) (td : TreeData) (entry : LsEntry) :
    Option TreeData :=
  let path0 := lstripSlash entry.path
  let path := if isWindows then path0.map Char.toLower else path0
  let parent := posixDirname path
  let mtime := parseDate entry.mtime
  if entry.entryType = ['d', 'i', 'r'] ∧ ¬ td.hasKey path then
    td.insert parent path entry.name [[], mtime]
  else if entry.entryType = ['f', 'i', 'l', 'e'] then
    td.insert parent path entry.name [bytesHuman entry.size, mtime]
  else
    some td

/-- `_make_treedata_from_json`: fold the loop body over the entry list
starting from a fresh `TreeData`; a raising iteration aborts the thread
(the exception is re-raised from `thread.result()`). -/
def makeTreedataFromJson (isWindows : Bool) (parseDate : List Char → List Char)
    (bytesHuman : Nat → List Char) (entries : List LsEntry) :
    Option TreeData :=
  entries.foldlM (treedataStep isWindows parseDate bytesHuman) TreeData.empty

/-! ## The async task handle

The `@threaded` decorator and the handle it returns
(`done()` / `cancelled()` / `result()`) come from `ofunctions.threading`,
which is not part of this repository's sources.  Modelled from the spec:
the Async Task Runner's `TaskHandle` wraps one in-flight operation with a
completion flag, a cancellation flag and a result slot populated exactly
once on completion; `result()` blocks until done and returns the stored
value without re-running the operation. -/

/-- Modelled from the spec: a task handle for one submitted operation.
`runCount` counts how many times the underlying operation has been
executed (it is not observable in the real handle; it is carried here to
state "without re-running the operation"). -/
structure TaskHandle (α : Type) where
  runCount : Nat
  resultSlot : Option α
  doneFlag : Bool
  cancelledFlag : Bool
deriving DecidableEq, Repr

/-- Modelled from the spec: `submit(operation)` creates a fresh handle —
not done, not cancelled, empty result slot, operation not yet run. -/
def submitTask {α : Type} : TaskHandle α :=
  ⟨0, none, false, false⟩

/-- Modelled from the spec: the worker finishing the operation — it runs
the operation and populates the result slot exactly once; a handle that is
already done is left untouched. -/
def completeTask {α : Type} (op : Unit → α) (t : TaskHandle α) :
    TaskHandle α :=
  if t.doneFlag then t
  else ⟨t.runCount + 1, some (op ()), true, t.cancelledFlag⟩

/-- Modelled from the spec: `result()` on a completed handle — it returns
the stored result slot and leaves the handle (in particular `runCount`)
unchanged; the operation is not invoked. -/
def taskResult {α : Type} (t : TaskHandle α) : Option α × TaskHandle α :=
  (t.resultSlot, t)

/-! ## The backup progress-drain loop (src/npbackup/gui/main.py lines 375-387)

```
stdout = queue.Queue()
thread = _gui_backup(action={"action": "backup", "force": True}, config=config, stdout=stdout)
while not thread.done() and not thread.cancelled():
    try:
        stdout_line = stdout.get(timeout=.01)
    except queue.Empty:
        pass
    else:
        if stdout_line:
            progress_window['progress'].Update(stdout_line)
    sg.PopupAnimated(...)
sg.PopupAnimated(None)
result = thread.result()
```
The worker pushes each progress line onto the FIFO `stdout` queue and the
done flag is set only after the operation returns, i.e. after every line
has been pushed.  The coordinator loop exits as soon as `done()` is
observed; there is no further `stdout.get` after the loop.  This is a
two-party interleaving; it is modelled as a small-step system driven by an
explicit schedule of turns (lines carry opaque labels). -/

/-- State of the backup progress stream: the worker's not-yet-pushed lines,
the FIFO channel contents, the done flag, whether the coordinator has
exited its drain loop, and the lines the coordinator has taken off the
channel (in order). -/
structure BackupStreamState where
  pending : List Nat
  chan : List Nat
  doneFlag : Bool
  halted : Bool
  observed : List Nat
deriving DecidableEq, Repr

/-- One step of the backup worker: push the next progress line onto the
channel; once all lines are pushed, the operation returns and the handle's
done flag is set. -/
def producerStep (s : BackupStreamState) : BackupStreamState :=
  match s.pending with
  | [] => { s with doneFlag := true }
  | l :: rest => { s with pending := rest, chan := s.chan ++ [l] }

/-- One iteration of the coordinator's
`while not thread.done() and not thread.cancelled():` loop (the handle is
never cancelled here): if the done flag is up, exit the loop — without any
further draining, as in the source; otherwise take one line off the
channel if there is one (`queue.Empty` is just passed over). -/
def coordStep (s : BackupStreamState) : BackupStreamState :=
  if s.halted then s
  else if s.doneFlag then { s with halted := true }
  else
    match s.chan with
    | [] => s
    | l :: rest => { s with chan := rest, observed := s.observed ++ [l] }

/-- Which party moves. -/
inductive StreamTurn
  | worker
  | coordinator
deriving DecidableEq, Repr

/-- Run the two-party system under an explicit interleaving. -/
def runSchedule : List StreamTurn → BackupStreamState → BackupStreamState
  | [], s => s
  | t :: ts, s =>
    runSchedule ts
      (match t with
       | .worker => producerStep s
       | .coordinator => coordStep s)

/-- The initial state for a backup that will emit the given lines. -/
def initialStream (lines : List Nat) : BackupStreamState :=
  ⟨lines, [], false, false, []⟩

/-! ## Theorems -/

/-- C1: the presentation update for `has_recent_snapshots` distinguishes
exactly three outcomes — `True` renders the up-to-date state, `False` the
too-old state, `None` the not-connected state, and no two of these inputs
are mapped to the same rendered state. -/
theorem tristate_rendering_distinct :
    guiUpdateStateButton (some true) = .upToDate ∧
    guiUpdateStateButton (some false) = .tooOld ∧
    guiUpdateStateButton none = .notConnected ∧
    guiUpdateStateButton (some true) ≠ guiUpdateStateButton (some false) ∧
    guiUpdateStateButton (some true) ≠ guiUpdateStateButton none ∧
    guiUpdateStateButton (some false) ≠ guiUpdateStateButton none := by
  decide

/-- C3: whenever the `check-binary` action's result is falsy,
`get_gui_data` takes one of the two immediate error paths (configuration
error or missing binary) — the threaded `_get_gui_data` worker is never
submitted. -/
theorem checkBinary_falsy_no_task {α : Type} (checkBinary : Option Bool)
    (worker : α) (cfg : Config) (hfalsy : pyTruthy checkBinary = false) :
    getGuiData checkBinary worker cfg = .repoNotConfigured ∨
    getGuiData checkBinary worker cfg = .noBinary := by
  rcases cfg with ⟨_ | ⟨rep, pw⟩⟩
  · left; rfl
  · rcases rep with _ | rep
    · left; rfl
    · rcases pw with _ | pw
      · by_cases hrep : rep = [] <;> simp [getGuiData, hrep, hfalsy]
      · by_cases hrep : rep = [] <;> by_cases hpw : pw = [] <;>
          simp [getGuiData, hrep, hpw, hfalsy]

/-- Witness for C3 at a concrete input: repository `"x"`, password `"y"`,
`check-binary` returned `None` (falsy). -/
theorem checkBinary_falsy_no_task_witness :
    pyTruthy none = false ∧
    (getGuiData (α := Nat) none 0 ⟨some ⟨some ['x'], some ['y']⟩⟩ =
        .repoNotConfigured ∨
     getGuiData (α := Nat) none 0 ⟨some ⟨some ['x'], some ['y']⟩⟩ =
        .noBinary) :=
  ⟨rfl, checkBinary_falsy_no_task none 0 ⟨some ⟨some ['x'], some ['y']⟩⟩ rfl⟩

/-- C4 counterexample: a config whose repository entry is present but
EMPTY and whose password is non-empty passes the configuration check —
with a working binary the background worker IS submitted, contradicting
the claim that an empty repository entry always surfaces a configuration
error with no task submitted. -/
theorem emptyRepo_with_password_submits :
    getGuiData (α := Nat) (some true) 0 ⟨some ⟨some [], some ['x']⟩⟩ =
      GuiDataOutcome.submitted 0 ∧
    GuiDataOutcome.submitted 0 ≠ (GuiDataOutcome.repoNotConfigured (α := Nat)) := by
  exact ⟨rfl, by decide⟩

/-- C4 amended: `get_gui_data` surfaces the configuration error (returning
`(None, None)` with no task submitted) exactly when the `repo` section or
the `repository` key is missing, or the repository string is empty AND the
password is missing or empty; an empty repository with a non-empty
password proceeds past the check. -/
theorem repoNotConfigured_iff {α : Type} (checkBinary : Option Bool)
    (worker : α) (cfg : Config) :
    getGuiData checkBinary worker cfg = .repoNotConfigured ↔
      (cfg.repo = none ∨
        ∃ rc, cfg.repo = some rc ∧
          (rc.repository = none ∨
            (rc.repository = some [] ∧
              (rc.password = none ∨ rc.password = some [])))) := by
  rcases cfg with ⟨_ | ⟨rep, pw⟩⟩
  · simp [getGuiData]
  · rcases rep with _ | rep
    · simp [getGuiData]
    · rcases pw with _ | pw
      · by_cases hrep : rep = [] <;>
          by_cases hbin : pyTruthy checkBinary <;>
          simp [getGuiData, hrep, hbin]
      · by_cases hrep : rep = [] <;> by_cases hpw : pw = [] <;>
          by_cases hbin : pyTruthy checkBinary <;>
          simp [getGuiData, hrep, hpw, hbin]

/-- C5 evidence: a backup that emits one trailing progress line just
before completing.  Under the schedule "worker pushes the line, worker
completes (done flag up), coordinator polls", the coordinator's loop exits
at once because `done()` is true — no further drain happens — so the
coordinator halts having observed nothing while the line still sits in the
channel: the trailing line is lost, contradicting the claimed final drain. -/
theorem backup_trailing_line_lost :
    (runSchedule [.worker, .worker, .coordinator] (initialStream [7])).halted
        = true ∧
    (runSchedule [.worker, .worker, .coordinator] (initialStream [7])).observed
        = [] ∧
    (runSchedule [.worker, .worker, .coordinator] (initialStream [7])).chan
        = [7] := by
  decide

/-- C8: `result()` is idempotent — on a completed handle the first call
returns the operation's value, a second call returns the same value, and
the operation has still run exactly once (`runCount` stays 1, the result
slot having been populated exactly once on completion). -/
theorem taskResult_idempotent {α : Type} (op : Unit → α) :
    (taskResult (completeTask op submitTask)).1 = some (op ()) ∧
    (taskResult ((taskResult (completeTask op submitTask)).2)).1 =
      (taskResult (completeTask op submitTask)).1 ∧
    ((taskResult ((taskResult (completeTask op submitTask)).2)).2).runCount
      = 1 :=
  ⟨rfl, rfl, rfl⟩

/-- C9 counterexample: the colon-free repository string `"s3"` — which the
claim says must be displayed as a local folder — is displayed as an
external S3 server, because `split(':')[0]` of a colon-free string is the
whole string and `"s3".upper()` is in the backend list. -/
theorem colonFree_scheme_displayed_external :
    mainGuiDestination (some (.pyStr ['s', '3'])) =
      .externalServer ['S', '3'] ∧
    mainGuiDestination (some (.pyStr ['s', '3'])) ≠ .localFolder := by
  decide

/-- C9 amended: `main_gui` displays the destination as an external server
of backend `b` exactly when the repository entry is a string whose text
before the first `':'` — the entire string when it has no `':'` —
upper-cased equals `b` and `b` is one of REST, S3, B2, SFTP, SWIFT, AZURE,
GZ, RCLONE; every other entry (unmatched prefix, missing key, non-string
value) is displayed as a local folder. -/
theorem destination_external_iff (repoEntry : Option RepoValue)
    (b : List Char) :
    mainGuiDestination repoEntry = .externalServer b ↔
      ∃ s, repoEntry = some (.pyStr s) ∧ backendTypeOf s = b ∧
        b ∈ backendNames := by
  cases repoEntry with
  | none => simp [mainGuiDestination]
  | some v =>
    cases v with
    | nonStr => simp [mainGuiDestination]
    | pyStr s =>
      by_cases hb : backendTypeOf s ∈ backendNames
      · simp only [mainGuiDestination, if_pos hb]
        constructor
        · rintro h
          cases h
          exact ⟨s, rfl, rfl, hb⟩
        · rintro ⟨s', hs', hbt, _⟩
          cases hs'
          rw [hbt]
      · simp only [mainGuiDestination, if_neg hb]
        constructor
        · rintro h; cases h
        · rintro ⟨s', hs', hbt, hmem⟩
          cases hs'
          exact absurd (hbt ▸ hmem) hb

/-- The loop of `_get_gui_data` is a map when every record formats
successfully. -/
theorem buildSnapshotList_eq_map (fmt : SnapshotRecord → Option (List Char))
    (l : List SnapshotRecord) (h : ∀ s ∈ l, (fmt s).isSome) :
    buildSnapshotList fmt l = some (l.map (fun s => (fmt s).getD [])) := by
  induction l with
  | nil => rfl
  | cons s rest ih =>
    obtain ⟨v, hv⟩ := Option.isSome_iff_exists.mp
      (h s (List.mem_cons_self s rest))
    have hrest := ih (fun x hx => h x (List.mem_cons_of_mem s hx))
    simp [buildSnapshotList, hv, hrest]

/-- C2: for a non-empty snapshot sequence returned by the `list` action in
engine order, the worker returns the listbox entries in exactly the
reversed (newest-first) order, one formatted entry per snapshot. -/
theorem guiDataWorker_reverses_snapshots (parseDate : List Char → List Char)
    (tBackupFrom tRunAs : List Char) (currentState : Option Bool)
    (snaps : List SnapshotRecord) (hne : snaps ≠ [])
    (hfmt : ∀ s ∈ snaps,
      (formatSnapshotLine parseDate tBackupFrom tRunAs s).isSome) :
    guiDataWorker parseDate tBackupFrom tRunAs (some snaps) currentState =
      some (currentState, snaps.reverse.map
        (fun s => (formatSnapshotLine parseDate tBackupFrom tRunAs s).getD [])) ∧
    (snaps.reverse.map
        (fun s => (formatSnapshotLine parseDate tBackupFrom tRunAs s).getD
          [])).length = snaps.length := by
  have hrev : ∀ s ∈ snaps.reverse,
      (formatSnapshotLine parseDate tBackupFrom tRunAs s).isSome :=
    fun s hs => hfmt s (List.mem_reverse.mp hs)
  have hb := buildSnapshotList_eq_map _ _ hrev
  have hempty : snaps.isEmpty = false := by
    cases snaps with
    | nil => exact absurd rfl hne
    | cons a l => rfl
  constructor
  · simp [guiDataWorker, hempty, hb]
  · simp

/-- Witness for C2: a single fully-populated snapshot record. -/
theorem guiDataWorker_reverses_snapshots_witness :
    guiDataWorker (fun t => t) [] []
        (some [⟨some ['t'], some ['u'], some ['h'], some ['i']⟩])
        (some true) =
      some (some true,
        [⟨some ['t'], some ['u'], some ['h'], some ['i']⟩].reverse.map
          (fun s => (formatSnapshotLine (fun t => t) [] [] s).getD [])) ∧
    ([(⟨some ['t'], some ['u'], some ['h'], some ['i']⟩ : SnapshotRecord)].reverse.map
        (fun s => (formatSnapshotLine (fun t => t) [] [] s).getD [])).length
      = [(⟨some ['t'], some ['u'], some ['h'], some ['i']⟩ : SnapshotRecord)].length :=
  guiDataWorker_reverses_snapshots (fun t => t) [] [] (some true)
    [⟨some ['t'], some ['u'], some ['h'], some ['i']⟩]
    (by simp)
    (by intro s hs; simp only [List.mem_singleton] at hs; subst hs; rfl)

/-- C6 counterexample: a snapshot record with its `time` field missing
makes the `_get_gui_data` worker raise (`KeyError` on
`snapshot["time"]`) instead of substituting a placeholder — the whole
worker call fails. -/
theorem worker_raises_on_missing_time :
    guiDataWorker (fun t => t) [] []
        (some [⟨none, some [], some [], some []⟩]) (some true) = none := by
  rfl

/-- C6 amended: missing snapshot fields are tolerated with the
`'[inconnu]'` placeholder only by `_ls_window`'s header formatting, which
never raises; the records formatted by `_get_gui_data` are accessed with
plain subscripts and a missing `time`, `username`, `hostname` or
`short_id` field makes that formatting raise. -/
theorem header_placeholder_worker_raises :
    (∀ (parseDate : List Char → List Char) (t1 t2 t3 : List Char),
      lsHeaderLine parseDate t1 t2 t3 ⟨none, none, none, none⟩ =
        ' ' :: t1 ++ ' ' :: inconnu ++ ' ' :: t2 ++ ' ' :: inconnu
          ++ '@' :: inconnu ++ ' ' :: t3 ++ ' ' :: inconnu) ∧
    (∀ (parseDate : List Char → List Char) (tBackupFrom tRunAs : List Char)
        (s : SnapshotRecord),
      (s.time = none ∨ s.username = none ∨ s.hostname = none ∨
        s.short_id = none) →
      formatSnapshotLine parseDate tBackupFrom tRunAs s = none) := by
  constructor
  · intro parseDate t1 t2 t3
    rfl
  · rintro parseDate tB tR ⟨t, u, h, i⟩ h1
    rcases t with _ | t <;> rcases u with _ | u <;>
      rcases h with _ | h <;> rcases i with _ | i <;>
      simp_all [formatSnapshotLine]

/-- Witness for C6 amended: the all-fields-missing header record, and a
record missing only `time` aborting the worker-side formatting. -/
theorem header_placeholder_worker_raises_witness :
    lsHeaderLine (fun t => t) ['x'] ['y'] ['z'] ⟨none, none, none, none⟩ =
      ' ' :: ['x'] ++ ' ' :: inconnu ++ ' ' :: ['y'] ++ ' ' :: inconnu
        ++ '@' :: inconnu ++ ' ' :: ['z'] ++ ' ' :: inconnu ∧
    formatSnapshotLine (fun t => t) [] []
      ⟨none, some ['u'], some ['h'], some ['i']⟩ = none :=
  ⟨header_placeholder_worker_raises.1 (fun t => t) ['x'] ['y'] ['z'],
   header_placeholder_worker_raises.2 (fun t => t) [] []
     ⟨none, some ['u'], some ['h'], some ['i']⟩ (Or.inl rfl)⟩

/-- C7 counterexample: an `ls` node sequence containing only the child
`"a/b"` (its parent directory `"a"` implied by the path but absent from
the input) makes `_make_treedata_from_json` raise: the `Insert` of the
child looks its inferred parent key up in `tree_dict` and fails with
`KeyError` — no parent node is ever created from the path alone. -/
theorem treedata_raises_on_absent_parent :
    makeTreedataFromJson false (fun t => t) (fun _ => [])
      [⟨['a', '/', 'b'], ['b'], ['f', 'i', 'l', 'e'], 0, ['m']⟩] = none := by
  rfl

/-- C7 amended: tree construction yields a node for the parent `"a"` only
when the directory entry for `"a"` precedes the child `"a/b"` in the
input; with the opposite ordering — and in particular whenever `"a"` is
absent and merely implied by the child's path — the child's `Insert` fails
(`KeyError` on the inferred parent key) and construction raises. -/
theorem treedata_parent_order_dependent
    (parseDate : List Char → List Char) (bytesHuman : Nat → List Char)
    (nm1 nm2 mt1 mt2 : List Char) (sz : Nat) :
    (∃ td, makeTreedataFromJson false parseDate bytesHuman
        [⟨['a'], nm1, ['d', 'i', 'r'], 0, mt1⟩,
         ⟨['a', '/', 'b'], nm2, ['f', 'i', 'l', 'e'], sz, mt2⟩] = some td ∧
       td.hasKey ['a'] = true ∧ td.hasKey ['a', '/', 'b'] = true) ∧
    makeTreedataFromJson false parseDate bytesHuman
        [⟨['a', '/', 'b'], nm2, ['f', 'i', 'l', 'e'], sz, mt2⟩,
         ⟨['a'], nm1, ['d', 'i', 'r'], 0, mt1⟩] = none :=
  ⟨⟨_, rfl, rfl, rfl⟩, rfl⟩

/-- A list not starting with `'['` does not start with the marker. -/
theorem stripMarker_none_of_head_ne (c : Char) (rest : List Char)
    (h : c ≠ '[') : stripMarker (c :: rest) = none := by
  rcases rest with _ | ⟨c2, rest⟩
  · rfl
  · rcases rest with _ | ⟨c3, rest⟩
    · rfl
    · rcases rest with _ | ⟨c4, rest⟩
      · rfl
      · simp [stripMarker, h]

/-- A list containing no `'['` contains no marker occurrence. -/
theorem lastMarkerSplit_none_of_no_open (l : List Char) (h : '[' ∉ l) :
    lastMarkerSplit l = none := by
  induction l with
  | nil => rfl
  | cons c rest ih =>
    have hc : c ≠ '[' := by
      intro e; exact h (e ▸ List.mem_cons_self c rest)
    have hrest : '[' ∉ rest := fun hm => h (List.mem_cons_of_mem c hm)
    simp [lastMarkerSplit, ih hrest, stripMarker_none_of_head_ne c rest hc]

/-- In `p ++ "[ID " ++ sid ++ "]"` with `sid` free of `'['`, the last
marker occurrence is exactly the formatted one. -/
theorem lastMarkerSplit_format (p sid : List Char) (hsid : '[' ∉ sid) :
    lastMarkerSplit (p ++ '[' :: 'I' :: 'D' :: ' ' :: (sid ++ [']'])) =
      some (p, sid ++ [']']) := by
  induction p with
  | nil =>
    have hsub : lastMarkerSplit (sid ++ [']']) = none := by
      apply lastMarkerSplit_none_of_no_open
      intro hm
      rcases List.mem_append.mp hm with h | h
      · exact hsid h
      · exact absurd (List.mem_singleton.mp h) (by decide)
    have hm1 := stripMarker_none_of_head_ne ' ' (sid ++ [']']) (by decide)
    have hm2 := stripMarker_none_of_head_ne 'D' (' ' :: (sid ++ [']']))
      (by decide)
    have hm3 := stripMarker_none_of_head_ne 'I' ('D' :: ' ' :: (sid ++ [']']))
      (by decide)
    have hm4 : stripMarker ('[' :: 'I' :: 'D' :: ' ' :: (sid ++ [']'])) =
        some (sid ++ [']']) := by
      simp [stripMarker]
    simp [lastMarkerSplit, hsub, hm1, hm2, hm3, hm4]
  | cons c p ih =>
    simp [lastMarkerSplit, ih]

/-- In `l ++ "]"` with `l` free of `']'`, the last close bracket is the
final one and the capture before it is all of `l`. -/
theorem lastCloseSplit_format (l : List Char) (h : ']' ∉ l) :
    lastCloseSplit (l ++ [']']) = some (l, []) := by
  induction l with
  | nil => rfl
  | cons c rest ih =>
    have hc : c ≠ ']' := by
      intro e; exact h (e ▸ List.mem_cons_self c rest)
    have hrest : ']' ∉ rest := fun hm => h (List.mem_cons_of_mem c hm)
    simp [lastCloseSplit, ih hrest, hc]

/-- A newline-free list is its own newline-free prefix. -/
theorem takeWhile_no_newline_eq (l : List Char) (h : '\n' ∉ l) :
    l.takeWhile (fun c => c ≠ '\n') = l := by
  induction l with
  | nil => rfl
  | cons c rest ih =>
    have hc : c ≠ '\n' := by
      intro e; exact h (e ▸ List.mem_cons_self c rest)
    have hrest : '\n' ∉ rest := fun hm => h (List.mem_cons_of_mem c hm)
    simp [List.takeWhile_cons, hc]
    exact fun x hx e => hrest (e ▸ hx)

/-- The capture of the id-extraction pattern on any text of the shape
`p ++ "[ID " ++ sid ++ "]"` is exactly `sid`, provided `sid` contains
neither bracket and the text is newline-free (so the match is not cut off
by the first-newline confinement of `.`). -/
theorem idExtract_format (p sid : List Char) (h1 : '[' ∉ sid)
    (h2 : ']' ∉ sid) (hp : '\n' ∉ p) (h3 : '\n' ∉ sid) :
    idExtract (p ++ '[' :: 'I' :: 'D' :: ' ' :: (sid ++ [']'])) = some sid := by
  have hnl : '\n' ∉ (p ++ '[' :: 'I' :: 'D' :: ' ' :: (sid ++ [']'])) := by
    intro hm
    simp only [List.mem_append, List.mem_cons, List.mem_singleton] at hm
    rcases hm with h | h | h | h | h | h | h <;>
      first
        | exact absurd h (by decide)
        | exact hp h
        | exact h3 h
  unfold idExtract
  rw [takeWhile_no_newline_eq _ hnl, lastMarkerSplit_format p sid h1]
  simp [lastCloseSplit_format sid h2]

/-- C10 counterexample: a snapshot record whose `short_id` `"xy"` is
bracket-free — satisfying the claim's side condition — but whose username
contains a newline.  The leading `.*` of the pattern cannot cross the
`'\n'` to reach the `'[ID '` marker, so `re.match` returns `None` and
`.group(1)` raises `AttributeError`: the extraction does not recover the
`short_id` as the claim asserts. -/
theorem newline_username_extraction_raises :
    ('[' ∉ (['x', 'y'] : List Char)) ∧ (']' ∉ (['x', 'y'] : List Char)) ∧
    Option.bind
      (formatSnapshotLine (fun t => t) [] []
        ⟨some [], some ['u', '\n', 'v'], some ['h'], some ['x', 'y']⟩)
      idExtract = none ∧
    (none : Option (List Char)) ≠ some ['x', 'y'] := by
  exact ⟨by decide, by decide, rfl, by decide⟩

/-- C10 amended: round-trip between snapshot-list formatting and parsing —
for every snapshot record whose `short_id` contains neither `'['` nor
`']'` nor a newline, and whose surrounding texts (translation constants,
formatted date, username, hostname) are newline-free, applying
`ls_window`'s id-extraction regex to the listbox entry produced by
`_get_gui_data` recovers exactly the `short_id`.  (A newline anywhere
before the closing bracket prevents the match, since `.` cannot cross
`'\n'` without `re.DOTALL`.) -/
theorem snapshot_line_id_roundtrip (parseDate : List Char → List Char)
    (tBackupFrom tRunAs t u host sid : List Char)
    (h1 : '[' ∉ sid) (h2 : ']' ∉ sid) (h3 : '\n' ∉ sid)
    (h4 : '\n' ∉ tBackupFrom) (h5 : '\n' ∉ parseDate t) (h6 : '\n' ∉ tRunAs)
    (h7 : '\n' ∉ u) (h8 : '\n' ∉ host) :
    Option.bind
      (formatSnapshotLine parseDate tBackupFrom tRunAs
        ⟨some t, some u, some host, some sid⟩) idExtract = some sid := by
  have hline : formatSnapshotLine parseDate tBackupFrom tRunAs
      ⟨some t, some u, some host, some sid⟩ =
      some ((tBackupFrom ++ ' ' :: parseDate t ++ ' ' :: tRunAs ++ ' ' :: u
        ++ '@' :: host ++ [' '])
        ++ '[' :: 'I' :: 'D' :: ' ' :: (sid ++ [']'])) := by
    simp [formatSnapshotLine]
  rw [hline]
  apply idExtract_format _ sid h1 h2 ?_ h3
  intro hm
  simp only [List.mem_append, List.mem_cons, List.mem_singleton] at hm
  rcases hm with ((((h | h | h) | h | h) | h | h) | h | h) | h <;>
    first
      | exact absurd h (by decide)
      | exact h4 h
      | exact h5 h
      | exact h6 h
      | exact h7 h
      | exact h8 h

/-- Witness for C10 (amended) at a concrete record: `short_id = "xy"`,
all surrounding texts newline-free. -/
theorem snapshot_line_id_roundtrip_witness :
    ('[' ∉ ['x', 'y']) ∧ (']' ∉ ['x', 'y']) ∧ ('\n' ∉ ['x', 'y']) ∧
    ('\n' ∉ ['f']) ∧ ('\n' ∉ ['t']) ∧ ('\n' ∉ ['r']) ∧ ('\n' ∉ ['u']) ∧
    ('\n' ∉ ['h']) ∧
    Option.bind
      (formatSnapshotLine (fun t => t) ['f'] ['r']
        ⟨some ['t'], some ['u'], some ['h'], some ['x', 'y']⟩) idExtract =
      some ['x', 'y'] :=
  ⟨by decide, by decide, by decide, by decide, by decide, by decide,
   by decide, by decide,
   snapshot_line_id_roundtrip (fun t => t) ['f'] ['r'] ['t'] ['u'] ['h']
     ['x', 'y'] (by decide) (by decide) (by decide) (by decide) (by decide)
     (by decide) (by decide) (by decide)⟩

end NpbackupGui
